import Mathlib

set_option maxHeartbeats 1000000

namespace Transavia

/-! Shallow embedding of the `transavia-app` repository: the query/report
driver (`src/main.ts`, the version with the `mail`/`hourRange` options and
the `requiredArgs` presence loop) and the mail sender (`src/Mailer.ts`).

Calendar model.  The driver manipulates JavaScript `Date` values only through
civil observations: it parses an ISO `YYYY-MM-DD` string, calls
`setDate(getDate() + days)` (`AppDate.addDays`), and reads the civil date back
with `toISOString().split('T')[0]`.  For any fixed-offset time zone that chain
is exactly "advance the civil date by `days`", so the embedding works directly
on civil (year, month, day) triples. -/

/-- A proleptic Gregorian calendar date as observed through the JavaScript
`Date` object. -/
structure CivilDate where
  year : Nat
  month : Nat
  day : Nat
deriving DecidableEq, Repr

/-- Gregorian leap-year rule (the rule implemented by JavaScript `Date`). -/
def isLeap (y : Nat) : Bool :=
  (y % 4 == 0 && y % 100 != 0) || y % 400 == 0

/-- Days in month `m` of year `y`.  Months outside 1..12 never arise for the
dates the driver builds; the default branch returns 31. -/
def monthLen (y m : Nat) : Nat :=
  if m == 2 then (if isLeap y then 29 else 28)
  else if m == 4 || m == 6 || m == 9 || m == 11 then 30
  else 31

/-- Validity of a civil date (what JavaScript accepts when parsing an ISO
`YYYY-MM-DD` string into a non-Invalid `Date`). -/
def validDate (d : CivilDate) : Prop :=
  1 ≤ d.month ∧ d.month ≤ 12 ∧ 1 ≤ d.day ∧ d.day ≤ monthLen d.year d.month

instance : DecidablePred validDate := fun d => by
  unfold validDate
  infer_instance

/-- First month after month `m` of year `y` (December rolls into January of
the next year). -/
def rollMonth (y m : Nat) : Nat × Nat :=
  if m == 12 then (y + 1, 1) else (y, m + 1)

/-- Worker for `normalizeDate`, structurally recursive on a fuel bound (the
day count itself suffices, since every roll removes at least one day). -/
def normAux : Nat → Nat → Nat → Nat → CivilDate
  | 0, y, m, d => ⟨y, m, d⟩
  | fuel + 1, y, m, d =>
    if d ≤ monthLen y m then ⟨y, m, d⟩
    else normAux fuel (rollMonth y m).1 (rollMonth y m).2 (d - monthLen y m)

/-- Normalise a (year, month, day-of-month) triple whose day count may exceed
the month length, rolling the excess into the following months.  This is the
civil-level meaning of `setDate(getDate() + days)` in `AppDate.addDays`,
as later observed by `toISOString`. -/
def normalizeDate (y m d : Nat) : CivilDate := normAux d y m d

/-- `AppDate.addDays` (`src/main.ts` lines 6-13) observed at the civil level:
the stored instant moves forward by `i` days. -/
def addDays (dt : CivilDate) (i : Nat) : CivilDate :=
  normalizeDate dt.year dt.month (dt.day + i)

/-- The calendar successor of a date: the spec-side meaning of "plus one
day". -/
def nextDay (dt : CivilDate) : CivilDate :=
  if dt.day < monthLen dt.year dt.month then ⟨dt.year, dt.month, dt.day + 1⟩
  else ⟨(rollMonth dt.year dt.month).1, (rollMonth dt.year dt.month).2, 1⟩

/-- "Calendar date `dt` plus `i` days", as the spec phrases it: `i`
applications of the calendar successor. -/
def calendarShift (dt : CivilDate) (i : Nat) : CivilDate :=
  Nat.iterate nextDay i dt

/-! Digit-level parsing and formatting of the 8-digit date strings. -/

def digitVal (c : Char) : Nat := c.toNat - 48

def digitChar (n : Nat) : Char := Char.ofNat (48 + n)

def pad4 (n : Nat) : String :=
  ⟨[digitChar (n / 1000 % 10), digitChar (n / 100 % 10),
    digitChar (n / 10 % 10), digitChar (n % 10)]⟩

def pad2 (n : Nat) : String :=
  ⟨[digitChar (n / 10 % 10), digitChar (n % 10)]⟩

def pad6 (n : Nat) : String :=
  ⟨[digitChar (n / 100000 % 10), digitChar (n / 10000 % 10),
    digitChar (n / 1000 % 10), digitChar (n / 100 % 10),
    digitChar (n / 10 % 10), digitChar (n % 10)]⟩

/-- `date.toISOString().split('T')[0]` with the dashes stripped
(`src/main.ts` line 138).  For years 0..9999 `toISOString` zero-pads the
year to 4 digits and month and day to 2, giving an 8-digit string; for
larger years it uses the ISO 8601 expanded form `+YYYYYY-MM-DD`, so the
dash-stripped result is the 11-character `+YYYYYYMMDD`. -/
def format8 (dt : CivilDate) : String :=
  if dt.year ≤ 9999 then pad4 dt.year ++ pad2 dt.month ++ pad2 dt.day
  else "+" ++ pad6 dt.year ++ pad2 dt.month ++ pad2 dt.day

/-- Parse the `start` argument.  The regex at `src/main.ts` line 84 dashes an
8-digit string, and `new Date` parses the dashed ISO form; anything else
leaves `start` unchanged, producing an Invalid Date (`none` here — the real
program then crashes on `toISOString` before any request). -/
def parse8 (s : String) : Option CivilDate :=
  match s.data with
  | [y1, y2, y3, y4, m1, m2, d1, d2] =>
    if [y1, y2, y3, y4, m1, m2, d1, d2].all Char.isDigit then
      some ⟨digitVal y1 * 1000 + digitVal y2 * 100 + digitVal y3 * 10 + digitVal y4,
            digitVal m1 * 10 + digitVal m2,
            digitVal d1 * 10 + digitVal d2⟩
    else none
  | _ => none

/-- `formattedStart` (`src/main.ts` lines 84-86): the 8-digit start string
with dashes inserted; other strings are left unchanged (no regex match). -/
def dashedStart (s : String) : String :=
  match s.data with
  | [y1, y2, y3, y4, m1, m2, d1, d2] =>
    if [y1, y2, y3, y4, m1, m2, d1, d2].all Char.isDigit then
      ⟨[y1, y2, y3, y4, '-', m1, m2, '-', d1, d2]⟩
    else s
  | _ => s

/-! The data model of the driver. -/

/-- The validated command-line arguments as destructured at `src/main.ts`
line 60 (all four required strings present).  commander hands option values
over as the raw argument strings (the source itself re-coerces them with
unary `+` at line 188), so a supplied `adults`/`children` is a `String`
even though the `FlightArguments` interface declares `number`. -/
structure VArgs where
  origin : String
  destination : String
  start : String
  mail : String
  price : Option Int
  adults : Option String
  children : Option String
  hourRange : Option String
deriving DecidableEq, Repr

def hourRangeStr (a : VArgs) : String := a.hourRange.getD "0-24"

/-- A JavaScript value as it appears among the `params` properties: a
supplied option is a string, a defaulted count is a number. -/
inductive JVal where
  | str (s : String)
  | num (n : Int)
  | bool (b : Bool)
deriving DecidableEq, Repr

/-- JS truthiness, as tested by `value && ...` / `.filter(Boolean)`.  Note
that the string "0" is truthy while the number 0 is falsy. -/
def JVal.truthy : JVal → Bool
  | JVal.str s => s != ""
  | JVal.num n => n != 0
  | JVal.bool b => b

/-- Template-literal rendering of the value. -/
def JVal.render : JVal → String
  | JVal.str s => s
  | JVal.num n => toString n
  | JVal.bool b => if b then "true" else "false"

/-- `_adults = adults ?? 2`: the supplied string, or the number 2. -/
def adultsJ (a : VArgs) : JVal :=
  match a.adults with
  | some s => JVal.str s
  | none => JVal.num 2

/-- `_children = children ?? 0`: the supplied string, or the number 0. -/
def childrenJ (a : VArgs) : JVal :=
  match a.children with
  | some s => JVal.str s
  | none => JVal.num 0

/-- The mutable `params` object (`src/main.ts` lines 74-82), in insertion
order of its seven properties. -/
structure Params where
  origin : String
  destination : String
  originDepartureDate : String
  directFlight : Bool
  adults : JVal
  children : JVal
  hourRange : String
deriving DecidableEq, Repr

/-- `Object.entries(params)` in insertion order. -/
def entriesOf (p : Params) : List (String × JVal) :=
  [("origin", JVal.str p.origin),
   ("destination", JVal.str p.destination),
   ("originDepartureDate", JVal.str p.originDepartureDate),
   ("directFlight", JVal.bool p.directFlight),
   ("adults", p.adults),
   ("children", p.children),
   ("hourRange", JVal.str p.hourRange)]

/-- The query builder (`src/main.ts` lines 140-143): map each entry to
`key=value` when the value is truthy, drop the falsy ones. -/
def queryParts (p : Params) : List String :=
  (entriesOf p).filterMap
    (fun kv => if kv.2.truthy then some (kv.1 ++ "=" ++ kv.2.render) else none)

def queryString (p : Params) : String :=
  String.intercalate "&" (queryParts p)

def apiBase : String := "https://api.transavia.com/v1/flightoffers/"

def urlOf (p : Params) : String := apiBase ++ "?" ++ queryString p

/-- One element of the API's `flightOffer` array as the loop body reads it.
`intlHour` is the integer hour that the `Intl.DateTimeFormat` chain (format
as fr-FR numeric hour, strip the `h` suffix and a leading zero, unary plus)
extracts from `departureDateTime`; it is a locale/time-zone function of the
timestamp and therefore modelled as data carried by the offer. -/
structure Offer where
  flightNumber : String
  departureDateTime : String
  arrivalDateTime : String
  totalPriceAllPassengers : Int
  totalPriceOnePassenger : Int
  currencyCode : String
  href : String
  intlHour : Int
deriving DecidableEq, Repr

/-- An element of the `flightOffer` array: well-formed, or malformed so that
the destructuring of its nested fields throws a `TypeError`. -/
inductive Item where
  | ok (o : Offer)
  | bad
deriving DecidableEq, Repr

/-- What one day's `axios.get` produces: an HTTP failure carrying the error
response body, or a response whose `data.flightOffer` is absent (so that
`.length` throws) or is an array of items. -/
inductive DayResponse where
  | httpError (body : String)
  | okResponse (flightOffer : Option (List Item))
deriving DecidableEq, Repr

/-- `split('-')` on the character list (JS `String.prototype.split` with a
single-character separator; the split of the empty string is `[""]`). -/
def splitDashList : List Char → List (List Char)
  | [] => [[]]
  | c :: cs =>
    let r := splitDashList cs
    if c = '-' then [] :: r
    else
      match r with
      | [] => [[c]]
      | x :: xs => (c :: x) :: xs

def splitDash (s : String) : List String :=
  (splitDashList s.data).map (fun l => ⟨l⟩)

/-- JavaScript `Number()` coercion of the strings this program compares
against: the empty string coerces to 0, a digit string to its value,
anything else to NaN (`none`). -/
def jsToNum (s : String) : Option Int :=
  match s.data with
  | [] => some 0
  | cs =>
    if cs.all Char.isDigit then
      some (Int.ofNat (cs.foldl (fun acc c => acc * 10 + digitVal c) 0))
    else none

/-- Unary `+` coercion of a params value to a JS number (`none` is NaN),
as in `+params.adults + +params.children` at `src/main.ts` line 188. -/
def JVal.toNum : JVal → Option Int
  | JVal.str s => jsToNum s
  | JVal.num n => some n
  | JVal.bool b => some (if b then 1 else 0)

/-- Addition of JS numbers; NaN propagates. -/
def optAdd : Option Int → Option Int → Option Int
  | some x, some y => some (x + y)
  | _, _ => none

/-- Template-literal rendering of a JS number. -/
def renderNum : Option Int → String
  | some n => toString n
  | none => "NaN"

/-- `hour < bound` where the bound is a JS number or NaN: comparisons with
NaN are false. -/
def jsLtOpt (h : Int) : Option Int → Bool
  | some n => decide (h < n)
  | none => false

def jsGtOpt (h : Int) : Option Int → Bool
  | some n => decide (n < h)
  | none => false

/-- The filter constants fixed before the loop (`src/main.ts` lines
131-133): `hourRangeStart`, `hourRangeEnd` (strings coerced at comparison
time, or the numeric defaults 0 and 24) and `maxPrice` (default 1000). -/
structure Cfg where
  maxPrice : Int
  lo : Option Int
  hi : Option Int
deriving DecidableEq, Repr

def cfgOf (a : VArgs) : Cfg :=
  { maxPrice := a.price.getD 1000,
    lo := match a.hourRange with
      | none => some 0
      | some s => jsToNum ((splitDash s).headD ""),
    hi := match a.hourRange with
      | none => some 24
      | some s =>
        match ((splitDash s).drop 1).head? with
        | none => some 24
        | some t => jsToNum t }

/-! Report rendering. -/

/-- Stand-in for the fr-FR `Intl.DateTimeFormat(...).format(new Date(time))`
display formatting (`formatDate`, `src/main.ts` lines 18-25).  Its exact
rendering is a locale/ICU matter outside the program; no claim depends on
it, so it is modelled as the identity on the timestamp string. -/
def formatDateFR (time : String) : String := time

/-- `flight.deeplink.href.replace(/nl-NL/g, 'fr-FR')`. -/
def linkOf (o : Offer) : String := o.href.replace "nl-NL" "fr-FR"

/-- The sentence appended to `mailText` per admitted offer (`src/main.ts`
lines 178-180; note the arrival time is embedded raw, not formatted). -/
def textRow (a : VArgs) (o : Offer) : String :=
  "Le vol n°" ++ o.flightNumber ++ " départ " ++ formatDateFR o.departureDateTime ++
    " depuis " ++ a.origin ++ ", arrivé " ++ o.arrivalDateTime ++ " à " ++
    a.destination ++ " pour " ++ toString o.totalPriceAllPassengers ++
    o.currencyCode ++ " (" ++ toString o.totalPriceOnePassenger ++
    o.currencyCode ++ "/passager). " ++ linkOf o ++ "\n\n"

/-- The table row appended to `mailHTML` per admitted offer (`src/main.ts`
lines 182-191); the passenger count is `+params.adults + +params.children`. -/
def htmlRow (a : VArgs) (o : Offer) : String :=
  "\n                <tr>\n                  <td>" ++ o.flightNumber ++
    "</td>\n                  <td>" ++ formatDateFR o.departureDateTime ++
    "</td>\n                  <td>" ++ formatDateFR o.arrivalDateTime ++
    "</td>\n                  <td>" ++ toString o.totalPriceOnePassenger ++ " " ++
    o.currencyCode ++
    "</td>\n                  <td>" ++
    renderNum (optAdd (adultsJ a).toNum (childrenJ a).toNum) ++
    "</td>\n                  <td>" ++ toString o.totalPriceAllPassengers ++ " " ++
    o.currencyCode ++
    "</td>\n                  <td><a href=\"" ++ linkOf o ++ "\">" ++ linkOf o ++
    "</a></td>\n                </tr>"

/-- The initial value of `mailHTML` (`src/main.ts` lines 89-127): the header
and the open table shell, echoing the search parameters. -/
def headerHTML (a : VArgs) : String :=
  "\n            <h1>Transavia résultat de la recherche</h1>\n            <p>\n              Voici les résultats de la recherche en fonction des paramètres que vous avez entrés:\n            </p>\n            <ul>\n              <li>\n                <strong>Départ:</strong> " ++
    a.origin ++
    "\n              </li>\n              <li>\n                <strong>Arrivée:</strong> " ++
    a.destination ++
    "\n              </li>\n              <li>\n                <strong>Date de départ:</strong> " ++
    formatDateFR (dashedStart a.start) ++
    "\n              </li>\n              <li>\n                <strong>Nombre d\x27adultes:</strong> " ++
    (adultsJ a).render ++
    "\n              </li>\n              <li>\n                <strong>Nombre d\x27enfants:</strong> " ++
    (childrenJ a).render ++
    "\n              </li>\n              <li>\n                <strong>Prix maximum:</strong> " ++
    (match a.price with | some p => toString p | none => "Aucun") ++
    "\n              </li>\n            </ul>\n            <table>\n              <thead>\n                <tr>\n                  <th>Vol</th>\n                  <th>Départ</th>\n                  <th>Arrivée</th>\n                  <th>Prix/passager</th>\n                  <th>Passagers</th>\n                  <th>Prix total</th>\n                  <th>Lien</th>\n                </tr>\n              </thead>\n              <tbody>\n              "

/-- The closing appended after the loop (`src/main.ts` lines 200-202). -/
def footerHTML : String := "</tbody>\n          </table>\n          "

/-! The 15-day loop. -/

/-- The `for (const flight of flightOffer)` body (`src/main.ts` lines
158-192) as a structural recursion over the array: returns the text appended
to `mailText`, the text appended to `mailHTML`, and whether a malformed
element aborted the loop with a thrown `TypeError`.  Offers before the first
malformed element keep their rows. -/
def processItems (a : VArgs) (cfg : Cfg) : List Item → String × String × Bool
  | [] => ("", "", false)
  | Item.bad :: _ => ("", "", true)
  | Item.ok o :: rest =>
    let r := processItems a cfg rest
    if o.totalPriceOnePassenger < cfg.maxPrice then
      if jsLtOpt o.intlHour cfg.lo || jsGtOpt o.intlHour cfg.hi then r
      else (textRow a o ++ r.1, htmlRow a o ++ r.2.1, r.2.2)
    else r

/-- The mutable state threaded through the 15 iterations. -/
structure RunState where
  params : Params
  mailText : String
  mailHTML : String
  hasResults : Bool
  logs : List (Option String)
  requests : List Params
deriving Repr

def initParams (a : VArgs) : Params :=
  { origin := a.origin, destination := a.destination,
    originDepartureDate := a.start, directFlight := true,
    adults := adultsJ a, children := childrenJ a,
    hourRange := hourRangeStr a }

def initState (a : VArgs) : RunState :=
  { params := initParams a, mailText := "", mailHTML := headerHTML a,
    hasResults := false, logs := [], requests := [] }

/-- One iteration of the 15-day loop (`src/main.ts` lines 135-198): update
`params.originDepartureDate`, issue the GET (recorded in `requests`), then
on success test `flightOffer.length` and scan the offers, and on any thrown
error log `error.response?.data` (`none` models logging `undefined`, the
case of a thrown `TypeError`) and continue. -/
def loopStep (a : VArgs) (cfg : Cfg) (d0 : CivilDate) (responses : Nat → DayResponse)
    (st : RunState) (i : Nat) : RunState :=
  let p := { st.params with originDepartureDate := format8 (addDays d0 i) }
  let st1 := { st with params := p, requests := st.requests ++ [p] }
  match responses i with
  | DayResponse.httpError body => { st1 with logs := st1.logs ++ [some body] }
  | DayResponse.okResponse none => { st1 with logs := st1.logs ++ [none] }
  | DayResponse.okResponse (some items) =>
    let st2 := { st1 with hasResults := st1.hasResults || !items.isEmpty }
    let r := processItems a cfg items
    { st2 with mailText := st2.mailText ++ r.1, mailHTML := st2.mailHTML ++ r.2.1,
               logs := st2.logs ++ (if r.2.2 then [none] else []) }

/-- One email as handed to `Mailer.sendMail` (`src/Mailer.ts` lines 16-24);
nodemailer's `from` field is named `sender` here (`from` is a Lean keyword),
and `recipients` is the receivers list joined with a comma. -/
structure Mail where
  sender : String
  recipients : String
  subject : String
  text : String
  html : String
deriving DecidableEq, Repr

/-- Everything observable about one run of the driver body. -/
structure DriverResult where
  requests : List Params
  logs : List (Option String)
  mailText : String
  mailHTML : String
  sends : List Mail
  console : List String
  crashed : Bool
deriving DecidableEq, Repr

def crashedResult : DriverResult :=
  { requests := [], logs := [], mailText := "", mailHTML := "",
    sends := [], console := [], crashed := true }

def senderLine : String := "David Nogueira <noreply@david-nogueira.dev>"

/-- The code after the loop (`src/main.ts` lines 200-209): close the HTML
table, construct the `Mailer` with `[mail]` as receivers, and send exactly
when `hasResults` is set, logging the success message. -/
def driverOut (a : VArgs) (st : RunState) : DriverResult :=
  { requests := st.requests, logs := st.logs,
    mailText := st.mailText, mailHTML := st.mailHTML ++ footerHTML,
    sends := if st.hasResults then
        [{ sender := senderLine, recipients := a.mail,
           subject := "Nouvelle offre de vol", text := st.mailText,
           html := st.mailHTML ++ footerHTML }]
      else [],
    console := if st.hasResults then ["Mail bien envoyé !"] else [],
    crashed := false }

/-- The body of `main` after validation (`src/main.ts` lines 70-209) as a
function of the per-day API responses.  A `start` that is not a valid
8-digit date makes `toISOString` throw outside the try block at iteration 0
and crash the run before any request. -/
def runDriver (a : VArgs) (responses : Nat → DayResponse) : DriverResult :=
  match parse8 a.start with
  | some d0 =>
    if validDate d0 then
      driverOut a ((List.range 15).foldl (loopStep a (cfgOf a) d0 responses) (initState a))
    else crashedResult
  | none => crashedResult

/-! The entry of `main`: environment check and required-argument loop. -/

structure Env where
  transaviaApiKey : Option String
deriving DecidableEq, Repr

/-- The commander options object: a flag that was not supplied is an absent
property (`none`), and `arg in args` tests presence. -/
structure RawArgs where
  origin : Option String
  destination : Option String
  start : Option String
  mail : Option String
  price : Option Int
  adults : Option String
  children : Option String
  hourRange : Option String
deriving DecidableEq, Repr

/-- JS falsiness of `process.env.TRANSAVIA_API_KEY`: unset or empty. -/
def missingKey (e : Env) : Bool :=
  match e.transaviaApiKey with
  | none => true
  | some s => s == ""

/-- The first entry of `requiredArgs` (`src/main.ts` line 15) that is not a
property of `args`, in declaration order. -/
def firstMissing (r : RawArgs) : Option String :=
  if r.origin.isNone then some "origin"
  else if r.destination.isNone then some "destination"
  else if r.start.isNone then some "start"
  else if r.mail.isNone then some "mail"
  else none

inductive MainResult where
  | earlyExit (errMsg : String) (helpShown : Bool) (exitCode : Nat)
  | ran (r : DriverResult)
deriving DecidableEq, Repr

def toVArgs (r : RawArgs) : VArgs :=
  { origin := r.origin.getD "", destination := r.destination.getD "",
    start := r.start.getD "", mail := r.mail.getD "",
    price := r.price, adults := r.adults, children := r.children,
    hourRange := r.hourRange }

/-- `main` from the top (`src/main.ts` lines 54-210): the API-key check
(error message, no usage text, `process.exit(1)`), then the
required-argument loop.  On a missing argument the error line is printed and
`program.help()` prints the usage text and itself terminates the process
with commander's default status 0 (`process.exitCode ?? 0`), so the
`process.exit(1)` on the next source line is unreachable dead code. -/
def mainRun (e : Env) (r : RawArgs) (responses : Nat → DayResponse) : MainResult :=
  if missingKey e then MainResult.earlyExit "Missing Transavia API key" false 1
  else
    match firstMissing r with
    | some a => MainResult.earlyExit ("Missing required argument: " ++ a) true 0
    | none => MainResult.ran (runDriver (toVArgs r) responses)

def MainResult.requestCount : MainResult → Nat
  | MainResult.earlyExit _ _ _ => 0
  | MainResult.ran r => r.requests.length

def MainResult.exitStatus : MainResult → Option Nat
  | MainResult.earlyExit _ _ c => some c
  | MainResult.ran _ => none

def MainResult.helpWasShown : MainResult → Bool
  | MainResult.earlyExit _ h _ => h
  | MainResult.ran _ => false

/-! Spec-side characterisations of the run. -/

/-- The well-formed offers at the head of the `flightOffer` array, up to
(and excluding) the first malformed element: exactly the elements the loop
body finishes without throwing. -/
def goodItems : List Item → List Offer
  | [] => []
  | Item.bad :: _ => []
  | Item.ok o :: rest => o :: goodItems rest

def anyBad : List Item → Bool
  | [] => false
  | Item.bad :: _ => true
  | Item.ok _ :: rest => anyBad rest

/-- The admission filter as a predicate: strictly under the price cap and
not outside the hour range. -/
def offerKept (cfg : Cfg) (o : Offer) : Bool :=
  decide (o.totalPriceOnePassenger < cfg.maxPrice) &&
    !(jsLtOpt o.intlHour cfg.lo || jsGtOpt o.intlHour cfg.hi)

/-- The offers one day admits into the report, in API order. -/
def dayKept (cfg : Cfg) : DayResponse → List Offer
  | DayResponse.okResponse (some items) => (goodItems items).filter (offerKept cfg)
  | _ => []

/-- All admitted offers of a run: day offset ascending, then within-day API
order. -/
def keptAll (a : VArgs) (responses : Nat → DayResponse) : List Offer :=
  ((List.range 15).map (fun i => dayKept (cfgOf a) (responses i))).flatten

/-- Concatenation of a list of report rows into one buffer. -/
def catRows (l : List String) : String := l.foldr (· ++ ·) ""

def dayText (a : VArgs) (cfg : Cfg) (resp : DayResponse) : String :=
  catRows ((dayKept cfg resp).map (textRow a))

def dayHTML (a : VArgs) (cfg : Cfg) (resp : DayResponse) : String :=
  catRows ((dayKept cfg resp).map (htmlRow a))

/-- What the day's catch block logs: the HTTP error body, or `undefined`
(`none`) for a thrown `TypeError` (absent or malformed `flightOffer`). -/
def dayLog : DayResponse → List (Option String)
  | DayResponse.httpError b => [some b]
  | DayResponse.okResponse none => [none]
  | DayResponse.okResponse (some items) => if anyBad items then [none] else []

/-- Whether the day sets `hasResults`: `flightOffer` present with truthy
`length`. -/
def dayHas : DayResponse → Bool
  | DayResponse.okResponse (some items) => !items.isEmpty
  | _ => false

/-- The request the driver issues at offset `i`: the initial `params` with
only the departure date replaced. -/
def reqAt (a : VArgs) (d0 : CivilDate) (i : Nat) : Params :=
  { initParams a with originDepartureDate := format8 (addDays d0 i) }

/-- Whether some scanned day had a present, non-empty `flightOffer` array
(the condition under which `hasResults` ends up `true`). -/
def hasAny (responses : Nat → DayResponse) : Bool :=
  (List.range 15).any (fun i => dayHas (responses i))

/-- The final `mailText` buffer, day by day. -/
def allText (a : VArgs) (responses : Nat → DayResponse) : String :=
  catRows ((List.range 15).map (fun i => dayText a (cfgOf a) (responses i)))

/-- The rows portion of the final `mailHTML` buffer, day by day. -/
def allHTML (a : VArgs) (responses : Nat → DayResponse) : String :=
  catRows ((List.range 15).map (fun i => dayHTML a (cfgOf a) (responses i)))

/-- Everything the catch blocks log, day by day. -/
def allLogs (responses : Nat → DayResponse) : List (Option String) :=
  ((List.range 15).map (fun i => dayLog (responses i))).flatten

/-- The one mail handed to `Mailer.sendMail` when `hasResults` holds. -/
def mailOf (a : VArgs) (responses : Nat → DayResponse) : Mail :=
  { sender := senderLine, recipients := a.mail,
    subject := "Nouvelle offre de vol", text := allText a responses,
    html := headerHTML a ++ allHTML a responses ++ footerHTML }

/-- C3 as amended, in the spec's vocabulary: the query members a request
with departure date `dateStr` carries — the six claimed keys each present
only when its JS value is truthy, plus the `hourRange` member of the
`params` object (supplied value or default "0-24") whenever non-empty.  A
supplied adult/child count is a string and is sent whenever non-empty
(including "0"); the defaulted adult count is the number 2 (sent, rendered
as a numeral), and the defaulted child count is the number 0 (falsy, never
sent). -/
def claimedQueryParts (a : VArgs) (dateStr : String) : List String :=
  (if a.origin != "" then ["origin=" ++ a.origin] else []) ++
    (if a.destination != "" then ["destination=" ++ a.destination] else []) ++
    (if dateStr != "" then ["originDepartureDate=" ++ dateStr] else []) ++
    ["directFlight=true"] ++
    (match a.adults with
      | some s => if s != "" then ["adults=" ++ s] else []
      | none => ["adults=" ++ JVal.render (JVal.num 2)]) ++
    (match a.children with
      | some s => if s != "" then ["children=" ++ s] else []
      | none => []) ++
    (if hourRangeStr a != "" then ["hourRange=" ++ hourRangeStr a] else [])

/-! Concrete inputs used by the witnesses and counterexamples. -/

/-- A run with every option defaulted. -/
def argsD : VArgs :=
  { origin := "ORY", destination := "LIS", start := "20240601",
    mail := "user@example.com", price := none, adults := none,
    children := none, hourRange := none }

/-- The worked example of the spec: price cap 200, hour range 9-17. -/
def argsEx : VArgs :=
  { origin := "ORY", destination := "LIS", start := "20240601",
    mail := "user@example.com", price := some 200, adults := none,
    children := none, hourRange := some "9-17" }

/-- A run with `--children 0` supplied: commander passes the string "0",
which is truthy and therefore serialised into the query. -/
def argsC0 : VArgs := { argsD with children := some "0" }

/-- A start date at the very end of the four-digit-year range: the 15-day
window crosses into year 10000. -/
def args99 : VArgs := { argsD with start := "99991231" }

/-- An offer above the default price cap, departing at 10h. -/
def dearOffer : Offer :=
  { flightNumber := "TO4001", departureDateTime := "2024-06-01T10:15:00",
    arrivalDateTime := "2024-06-01T12:20:00", totalPriceAllPassengers := 4000,
    totalPriceOnePassenger := 2000, currencyCode := "EUR",
    href := "https://www.transavia.com/nl-NL/booking/", intlHour := 10 }

/-- A cheap offer inside the default hour range. -/
def cheapOffer : Offer :=
  { flightNumber := "TO4002", departureDateTime := "2024-06-01T09:05:00",
    arrivalDateTime := "2024-06-01T11:00:00", totalPriceAllPassengers := 300,
    totalPriceOnePassenger := 150, currencyCode := "EUR",
    href := "https://www.transavia.com/nl-NL/booking/", intlHour := 9 }

/-- Spec §8 example offers: 150 at 10h, 150 at 20h, 250 at 10h. -/
def exOffer1 : Offer := { cheapOffer with totalPriceOnePassenger := 150, intlHour := 10 }

def exOffer2 : Offer := { cheapOffer with totalPriceOnePassenger := 150, intlHour := 20 }

def exOffer3 : Offer := { cheapOffer with totalPriceOnePassenger := 250, intlHour := 10 }

/-- Day 0 returns one offer that the filter rejects; every other day an
empty array. -/
def respRejected : Nat → DayResponse := fun i =>
  if i = 0 then DayResponse.okResponse (some [Item.ok dearOffer])
  else DayResponse.okResponse (some [])

/-- Day 0 returns one admissible offer; every other day an empty array. -/
def respOneGood : Nat → DayResponse := fun i =>
  if i = 0 then DayResponse.okResponse (some [Item.ok cheapOffer])
  else DayResponse.okResponse (some [])

/-- Every day returns an empty array. -/
def respAllEmpty : Nat → DayResponse := fun _ => DayResponse.okResponse (some [])

/-- Day 0 admits an offer, day 3 fails over HTTP, the rest are empty. -/
def respOneFail : Nat → DayResponse := fun i =>
  if i = 0 then DayResponse.okResponse (some [Item.ok cheapOffer])
  else if i = 3 then DayResponse.httpError "boom"
  else DayResponse.okResponse (some [])

/-- Day 2 returns a good offer, then a malformed element, then another good
offer that the thrown error prevents from being processed. -/
def respSplitDay : Nat → DayResponse := fun i =>
  if i = 2 then
    DayResponse.okResponse (some [Item.ok cheapOffer, Item.bad, Item.ok cheapOffer])
  else DayResponse.okResponse (some [])

def envOK : Env := { transaviaApiKey := some "secret" }

def envNoKey : Env := { transaviaApiKey := none }

/-- All four required options supplied. -/
def rawFull : RawArgs :=
  { origin := some "ORY", destination := some "LIS", start := some "20240601",
    mail := some "user@example.com", price := none, adults := none,
    children := none, hourRange := none }

def rawNoMail : RawArgs := { rawFull with mail := none }

/-! Helper lemmas: the calendar. -/

theorem monthLen_pos (y m : Nat) : 0 < monthLen y m := by
  unfold monthLen
  split
  · split <;> omega
  · split <;> omega

/-- The fuel argument of `normAux` is irrelevant as long as it bounds the
day count. -/
theorem normAux_fuel_eq (f1 : Nat) : ∀ (f2 y m d : Nat), d ≤ f1 → d ≤ f2 →
    normAux f1 y m d = normAux f2 y m d := by
  induction f1 with
  | zero =>
    intro f2 y m d h1 h2
    have hd : d = 0 := by omega
    subst hd
    cases f2 <;> simp [normAux]
  | succ f ih =>
    intro f2 y m d h1 h2
    cases f2 with
    | zero =>
      have hd : d = 0 := by omega
      subst hd
      simp [normAux]
    | succ g =>
      by_cases h : d ≤ monthLen y m
      · simp [normAux, h]
      · have hpos := monthLen_pos y m
        simp only [normAux, if_neg h]
        exact ih g _ _ _ (by omega) (by omega)

theorem normalizeDate_base (y m d : Nat) (h : d ≤ monthLen y m) :
    normalizeDate y m d = ⟨y, m, d⟩ := by
  cases d with
  | zero => rfl
  | succ k => simp [normalizeDate, normAux, h]

theorem normalizeDate_roll (y m d : Nat) (h : ¬ d ≤ monthLen y m) :
    normalizeDate y m d =
      normalizeDate (rollMonth y m).1 (rollMonth y m).2 (d - monthLen y m) := by
  have hpos := monthLen_pos y m
  cases d with
  | zero => omega
  | succ k =>
    simp only [normalizeDate, normAux, if_neg h]
    exact normAux_fuel_eq k _ _ _ _ (by omega) (by omega)

theorem normalizeDate_succ (y m d : Nat) (hd : 1 ≤ d) :
    normalizeDate y m (d + 1) = nextDay (normalizeDate y m d) := by
  induction d using Nat.strong_induction_on generalizing y m with
  | _ d ih =>
    rcases Nat.lt_or_ge d (monthLen y m) with hlt | hge
    · have h1 : d + 1 ≤ monthLen y m := hlt
      rw [normalizeDate_base y m (d + 1) h1, normalizeDate_base y m d (Nat.le_of_lt hlt)]
      unfold nextDay
      simp [hlt]
    · rcases Nat.eq_or_lt_of_le hge with heq | hgt
      · -- d = monthLen y m : the successor rolls into the next month
        have h1 : ¬ d + 1 ≤ monthLen y m := by omega
        rw [normalizeDate_roll y m (d + 1) h1]
        have h2 : d + 1 - monthLen y m = 1 := by omega
        rw [h2, normalizeDate_base _ _ 1 (monthLen_pos _ _),
          normalizeDate_base y m d (by omega)]
        unfold nextDay
        simp [show ¬ d < monthLen y m by omega]
      · -- d > monthLen y m : both sides roll and the induction hypothesis
        -- applies at the smaller residual day count
        have h0 : ¬ d ≤ monthLen y m := by omega
        have h1 : ¬ d + 1 ≤ monthLen y m := by omega
        rw [normalizeDate_roll y m (d + 1) h1, normalizeDate_roll y m d h0]
        have h2 : d + 1 - monthLen y m = (d - monthLen y m) + 1 := by omega
        rw [h2]
        exact ih (d - monthLen y m) (by have := monthLen_pos y m; omega) _ _
          (by omega)

/-- What the code computes with day-count arithmetic is the calendar shift
the spec describes. -/
theorem addDays_eq_calendarShift (dt : CivilDate) (i : Nat) (hv : validDate dt) :
    addDays dt i = calendarShift dt i := by
  induction i with
  | zero =>
    unfold addDays calendarShift
    simp [normalizeDate_base dt.year dt.month dt.day hv.2.2.2]
  | succ n ih =>
    unfold addDays at ih ⊢
    have h2 : dt.day + (n + 1) = (dt.day + n) + 1 := by omega
    rw [h2, normalizeDate_succ _ _ _ (by have := hv.2.2.1; omega), ih]
    unfold calendarShift
    rw [Function.iterate_succ_apply']

theorem format8_length (dt : CivilDate) (h : dt.year ≤ 9999) :
    (format8 dt).length = 8 := by
  rw [format8, if_pos h]
  rfl

/-! Helper lemmas: row concatenation. -/

@[simp]
theorem catRows_nil : catRows [] = "" := rfl

@[simp]
theorem catRows_cons (s : String) (l : List String) :
    catRows (s :: l) = s ++ catRows l := rfl

theorem catRows_append (l1 l2 : List String) :
    catRows (l1 ++ l2) = catRows l1 ++ catRows l2 := by
  induction l1 with
  | nil => simp
  | cons s l ih => simp [ih, String.append_assoc]

theorem catRows_flatten (L : List (List String)) :
    catRows L.flatten = catRows (L.map catRows) := by
  induction L with
  | nil => rfl
  | cons x L ih => simp [catRows_append, ih]

/-! Helper lemmas: the offer loop. -/

theorem processItems_spec (a : VArgs) (cfg : Cfg) (items : List Item) :
    processItems a cfg items =
      (catRows (((goodItems items).filter (offerKept cfg)).map (textRow a)),
       catRows (((goodItems items).filter (offerKept cfg)).map (htmlRow a)),
       anyBad items) := by
  induction items with
  | nil => rfl
  | cons it rest ih =>
    cases it with
    | bad => rfl
    | ok o =>
      simp only [processItems, ih, goodItems, anyBad]
      by_cases h1 : o.totalPriceOnePassenger < cfg.maxPrice
      · by_cases h2 : (jsLtOpt o.intlHour cfg.lo || jsGtOpt o.intlHour cfg.hi) = true
        · simp [h1, h2, offerKept, List.filter_cons]
        · simp [h1, h2, offerKept, List.filter_cons]
      · simp [h1, offerKept, List.filter_cons]

theorem goodItems_of_split (pre : List Offer) (rest : List Item) :
    goodItems (pre.map Item.ok ++ Item.bad :: rest) = pre := by
  induction pre with
  | nil => rfl
  | cons o l ih => simp [goodItems, ih]

theorem anyBad_of_split (pre : List Offer) (rest : List Item) :
    anyBad (pre.map Item.ok ++ Item.bad :: rest) = true := by
  induction pre with
  | nil => rfl
  | cons o l ih => simp [anyBad, ih]

/-! Helper lemmas: one loop iteration, component by component. -/

@[simp]
theorem Params_set_set (p : Params) (x y : String) :
    ({ { p with originDepartureDate := x } with originDepartureDate := y } : Params) =
      { p with originDepartureDate := y } := rfl

theorem loopStep_params (a : VArgs) (cfg : Cfg) (d0 : CivilDate)
    (responses : Nat → DayResponse) (st : RunState) (i : Nat) :
    (loopStep a cfg d0 responses st i).params =
      { st.params with originDepartureDate := format8 (addDays d0 i) } := by
  cases h : responses i with
  | httpError b => simp [loopStep, h]
  | okResponse fo =>
    cases fo with
    | none => simp [loopStep, h]
    | some items => simp [loopStep, h]

theorem loopStep_requests (a : VArgs) (cfg : Cfg) (d0 : CivilDate)
    (responses : Nat → DayResponse) (st : RunState) (i : Nat) :
    (loopStep a cfg d0 responses st i).requests =
      st.requests ++ [{ st.params with originDepartureDate := format8 (addDays d0 i) }] := by
  cases h : responses i with
  | httpError b => simp [loopStep, h]
  | okResponse fo =>
    cases fo with
    | none => simp [loopStep, h]
    | some items => simp [loopStep, h]

theorem loopStep_mailText (a : VArgs) (cfg : Cfg) (d0 : CivilDate)
    (responses : Nat → DayResponse) (st : RunState) (i : Nat) :
    (loopStep a cfg d0 responses st i).mailText =
      st.mailText ++ dayText a cfg (responses i) := by
  cases h : responses i with
  | httpError b => simp [loopStep, h, dayText, dayKept]
  | okResponse fo =>
    cases fo with
    | none => simp [loopStep, h, dayText, dayKept]
    | some items => simp [loopStep, h, dayText, dayKept, processItems_spec]

theorem loopStep_mailHTML (a : VArgs) (cfg : Cfg) (d0 : CivilDate)
    (responses : Nat → DayResponse) (st : RunState) (i : Nat) :
    (loopStep a cfg d0 responses st i).mailHTML =
      st.mailHTML ++ dayHTML a cfg (responses i) := by
  cases h : responses i with
  | httpError b => simp [loopStep, h, dayHTML, dayKept]
  | okResponse fo =>
    cases fo with
    | none => simp [loopStep, h, dayHTML, dayKept]
    | some items => simp [loopStep, h, dayHTML, dayKept, processItems_spec]

theorem loopStep_logs (a : VArgs) (cfg : Cfg) (d0 : CivilDate)
    (responses : Nat → DayResponse) (st : RunState) (i : Nat) :
    (loopStep a cfg d0 responses st i).logs = st.logs ++ dayLog (responses i) := by
  cases h : responses i with
  | httpError b => simp [loopStep, h, dayLog]
  | okResponse fo =>
    cases fo with
    | none => simp [loopStep, h, dayLog]
    | some items => simp [loopStep, h, dayLog, processItems_spec]

theorem loopStep_hasResults (a : VArgs) (cfg : Cfg) (d0 : CivilDate)
    (responses : Nat → DayResponse) (st : RunState) (i : Nat) :
    (loopStep a cfg d0 responses st i).hasResults =
      (st.hasResults || dayHas (responses i)) := by
  cases h : responses i with
  | httpError b => simp [loopStep, h, dayHas]
  | okResponse fo =>
    cases fo with
    | none => simp [loopStep, h, dayHas]
    | some items => simp [loopStep, h, dayHas]

/-! Helper lemmas: folding the 15 iterations. -/

theorem foldl_requests (a : VArgs) (cfg : Cfg) (d0 : CivilDate)
    (responses : Nat → DayResponse) (l : List Nat) (st : RunState) :
    (l.foldl (loopStep a cfg d0 responses) st).requests =
      st.requests ++ l.map (fun i =>
        { st.params with originDepartureDate := format8 (addDays d0 i) }) := by
  induction l generalizing st with
  | nil => simp
  | cons j l ih =>
    rw [List.foldl_cons, ih, loopStep_requests, loopStep_params]
    simp [List.append_assoc]

theorem foldl_mailText (a : VArgs) (cfg : Cfg) (d0 : CivilDate)
    (responses : Nat → DayResponse) (l : List Nat) (st : RunState) :
    (l.foldl (loopStep a cfg d0 responses) st).mailText =
      st.mailText ++ catRows (l.map (fun i => dayText a cfg (responses i))) := by
  induction l generalizing st with
  | nil => simp
  | cons j l ih =>
    rw [List.foldl_cons, ih, loopStep_mailText]
    simp [String.append_assoc]

theorem foldl_mailHTML (a : VArgs) (cfg : Cfg) (d0 : CivilDate)
    (responses : Nat → DayResponse) (l : List Nat) (st : RunState) :
    (l.foldl (loopStep a cfg d0 responses) st).mailHTML =
      st.mailHTML ++ catRows (l.map (fun i => dayHTML a cfg (responses i))) := by
  induction l generalizing st with
  | nil => simp
  | cons j l ih =>
    rw [List.foldl_cons, ih, loopStep_mailHTML]
    simp [String.append_assoc]

theorem foldl_logs (a : VArgs) (cfg : Cfg) (d0 : CivilDate)
    (responses : Nat → DayResponse) (l : List Nat) (st : RunState) :
    (l.foldl (loopStep a cfg d0 responses) st).logs =
      st.logs ++ (l.map (fun i => dayLog (responses i))).flatten := by
  induction l generalizing st with
  | nil => simp
  | cons j l ih =>
    rw [List.foldl_cons, ih, loopStep_logs]
    simp [List.append_assoc]

theorem foldl_hasResults (a : VArgs) (cfg : Cfg) (d0 : CivilDate)
    (responses : Nat → DayResponse) (l : List Nat) (st : RunState) :
    (l.foldl (loopStep a cfg d0 responses) st).hasResults =
      (st.hasResults || l.any (fun i => dayHas (responses i))) := by
  induction l generalizing st with
  | nil => simp
  | cons j l ih =>
    rw [List.foldl_cons, ih, loopStep_hasResults]
    simp [Bool.or_assoc]

/-- Master characterisation of a non-crashing run: every observable of the
driver decomposes into independent per-day contributions. -/
theorem runDriver_spec (a : VArgs) (responses : Nat → DayResponse) (d0 : CivilDate)
    (hp : parse8 a.start = some d0) (hv : validDate d0) :
    runDriver a responses =
      { requests := (List.range 15).map (reqAt a d0),
        logs := allLogs responses,
        mailText := allText a responses,
        mailHTML := headerHTML a ++ allHTML a responses ++ footerHTML,
        sends := if hasAny responses then [mailOf a responses] else [],
        console := if hasAny responses then ["Mail bien envoyé !"] else [],
        crashed := false } := by
  simp only [runDriver, hp]
  rw [if_pos hv]
  unfold driverOut
  rw [foldl_requests, foldl_mailText, foldl_mailHTML, foldl_logs, foldl_hasResults]
  simp only [initState, initParams]
  unfold mailOf allText allHTML allLogs hasAny reqAt initParams
  simp [String.append_assoc]

/-! Helper lemmas: relating the buffers to the admitted-offer list. -/

theorem allText_keptAll (a : VArgs) (responses : Nat → DayResponse) :
    allText a responses = catRows ((keptAll a responses).map (textRow a)) := by
  unfold allText keptAll dayText
  rw [List.map_flatten, catRows_flatten, List.map_map, List.map_map]
  rfl

theorem allHTML_keptAll (a : VArgs) (responses : Nat → DayResponse) :
    allHTML a responses = catRows ((keptAll a responses).map (htmlRow a)) := by
  unfold allHTML keptAll dayHTML
  rw [List.map_flatten, catRows_flatten, List.map_map, List.map_map]
  rfl

theorem hasAny_iff (responses : Nat → DayResponse) :
    hasAny responses = true ↔ ∃ i, i < 15 ∧ dayHas (responses i) = true := by
  unfold hasAny
  simp [List.any_eq_true, List.mem_range]

theorem dayHas_of_dayKept (cfg : Cfg) (resp : DayResponse)
    (h : dayKept cfg resp ≠ []) : dayHas resp = true := by
  cases resp with
  | httpError b => simp [dayKept] at h
  | okResponse fo =>
    cases fo with
    | none => simp [dayKept] at h
    | some items =>
      cases items with
      | nil => simp [dayKept, goodItems] at h
      | cons it rest => simp [dayHas]

theorem hasAny_of_keptAll (a : VArgs) (responses : Nat → DayResponse)
    (h : keptAll a responses ≠ []) : hasAny responses = true := by
  unfold keptAll at h
  rw [Ne, List.flatten_eq_nil_iff] at h
  push_neg at h
  obtain ⟨l, hl, hne⟩ := h
  obtain ⟨i, hi, rfl⟩ := List.mem_map.mp hl
  exact (hasAny_iff responses).mpr
    ⟨i, List.mem_range.mp hi, dayHas_of_dayKept _ _ hne⟩

/-! The claims. -/

/-- C1 is false of the code: with the default arguments and a day-0 response
containing one offer that the price filter rejects (every other day an empty
array), zero offers are admitted across all 15 days, yet the driver still
performs one mail-send call — `hasResults` is set from the length of the
returned `flightOffer` array, not from admissions. -/
theorem c1_counterexample :
    keptAll argsD respRejected = [] ∧
      (runDriver argsD respRejected).sends.length = 1 := by
  constructor
  · decide
  · rw [runDriver_spec argsD respRejected ⟨2024, 6, 1⟩ (by decide) (by decide)]
    rw [(by decide : hasAny respRejected = true)]
    rfl

/-- C1 as amended: a mail-send call occurs iff at least one scanned day's
response was successfully destructured with a non-empty `flightOffer` array;
whether any offer passed the admission filter is irrelevant. -/
theorem c1_amended_send_iff (a : VArgs) (responses : Nat → DayResponse)
    (d0 : CivilDate) (hp : parse8 a.start = some d0) (hv : validDate d0) :
    (runDriver a responses).sends ≠ [] ↔
      ∃ i, i < 15 ∧ dayHas (responses i) = true := by
  rw [runDriver_spec a responses d0 hp hv, ← hasAny_iff responses]
  rcases Bool.eq_false_or_eq_true (hasAny responses) with h | h <;> simp [h]

theorem c1_witness : (runDriver argsD respRejected).sends ≠ [] :=
  (c1_amended_send_iff argsD respRejected ⟨2024, 6, 1⟩ (by decide) (by decide)).mpr
    ⟨0, by decide, by decide⟩

/-- C2: an offer is admitted into a day's report iff the loop reaches it and
`priceOnePassenger < maxPrice` (default 1000) and its departure hour lies
within `[hourRangeStart, hourRangeEnd]` inclusive (default [0, 24]); each
conjunct is necessary (the iff) and neither alone is sufficient (the two
rejected witnesses). -/
theorem c2_admission_iff (a : VArgs) (l h : Int) (o : Offer)
    (hlo : (cfgOf a).lo = some l) (hhi : (cfgOf a).hi = some h) (hlh : l ≤ h) :
    (∀ items, o ∈ dayKept (cfgOf a) (DayResponse.okResponse (some items)) ↔
        o ∈ goodItems items ∧ offerKept (cfgOf a) o = true) ∧
      (offerKept (cfgOf a) o = true ↔
        o.totalPriceOnePassenger < (cfgOf a).maxPrice ∧
          l ≤ o.intlHour ∧ o.intlHour ≤ h) ∧
      (a.price = none → (cfgOf a).maxPrice = 1000) ∧
      (a.hourRange = none → (cfgOf a).lo = some 0 ∧ (cfgOf a).hi = some 24) ∧
      (∃ o1 : Offer, o1.totalPriceOnePassenger < (cfgOf a).maxPrice ∧
        offerKept (cfgOf a) o1 = false) ∧
      (∃ o2 : Offer, l ≤ o2.intlHour ∧ o2.intlHour ≤ h ∧
        offerKept (cfgOf a) o2 = false) := by
  refine ⟨fun items => List.mem_filter, ?_, ?_, ?_, ?_, ?_⟩
  · simp [offerKept, hlo, hhi, jsLtOpt, jsGtOpt]
  · intro hn
    simp [cfgOf, hn]
  · intro hn
    simp [cfgOf, hn]
  · refine ⟨⟨"", "", "", 0, (cfgOf a).maxPrice - 1, "", "", h + 1⟩, ?_, ?_⟩
    · show (cfgOf a).maxPrice - 1 < (cfgOf a).maxPrice
      omega
    · simp [offerKept, hlo, hhi, jsLtOpt, jsGtOpt]
  · refine ⟨⟨"", "", "", 0, (cfgOf a).maxPrice, "", "", l⟩, le_refl l, hlh, ?_⟩
    simp [offerKept, hlo, hhi, jsLtOpt, jsGtOpt]

/-- Witness for C2 at the spec's worked example (cap 200, range 9-17): 150
at 10h admitted, 150 at 20h rejected, 250 at 10h rejected. -/
theorem c2_witness :
    offerKept (cfgOf argsEx) exOffer1 = true ∧
      offerKept (cfgOf argsEx) exOffer2 ≠ true ∧
      offerKept (cfgOf argsEx) exOffer3 ≠ true := by
  have H1 := c2_admission_iff argsEx 9 17 exOffer1 (by decide) (by decide) (by decide)
  have H2 := c2_admission_iff argsEx 9 17 exOffer2 (by decide) (by decide) (by decide)
  have H3 := c2_admission_iff argsEx 9 17 exOffer3 (by decide) (by decide) (by decide)
  refine ⟨H1.2.1.mpr (by decide), fun hh => ?_, fun hh => ?_⟩
  · have h3 := H2.2.1.mp hh
    revert h3
    decide
  · have h3 := H3.2.1.mp hh
    revert h3
    decide

/-- `format8` never yields the empty string (8 or 11 characters). -/
theorem format8_ne_empty (dt : CivilDate) : (format8 dt != "") = true := by
  by_cases h : dt.year ≤ 9999
  · rw [format8, if_pos h]
    rfl
  · rw [format8, if_neg h]
    rfl

theorem truthy_num_two : JVal.truthy (JVal.num 2) = true := rfl

theorem truthy_num_zero : JVal.truthy (JVal.num 0) = false := rfl

/-- C3 is false of the code: with every optional argument defaulted, the
first request's query has no `children` key (its default 0 is falsy and
filtered out) and carries a seventh `hourRange` key — not "exactly" the six
claimed parameters. -/
theorem c3_counterexample :
    ((runDriver argsD respAllEmpty).requests.head?.map queryParts) =
      some ["origin=ORY", "destination=LIS", "originDepartureDate=20240601",
        "directFlight=true", "adults=2", "hourRange=0-24"] := by
  decide

/-- C3 as amended: every issued request carries the truthy members of the
seven-property params object — the six claimed keys each present only when
their JS value is truthy (a supplied count is a string, sent whenever
non-empty, including "0"; the defaulted adults 2 is sent, the defaulted
children 0 is dropped), plus `hourRange`. -/
theorem c3_amended_query (a : VArgs) (responses : Nat → DayResponse)
    (d0 : CivilDate) (hp : parse8 a.start = some d0) (hv : validDate d0)
    (p : Params) (hmem : p ∈ (runDriver a responses).requests) :
    queryParts p = claimedQueryParts a p.originDepartureDate := by
  rw [runDriver_spec a responses d0 hp hv] at hmem
  obtain ⟨i, hi, rfl⟩ := List.mem_map.mp hmem
  cases ha : a.adults with
  | none =>
    cases hc : a.children with
    | none =>
      rcases Bool.eq_false_or_eq_true (a.origin != "") with h1 | h1 <;>
        rcases Bool.eq_false_or_eq_true (a.destination != "") with h2 | h2 <;>
        rcases Bool.eq_false_or_eq_true (hourRangeStr a != "") with h6 | h6 <;>
        simp [queryParts, entriesOf, claimedQueryParts, reqAt, initParams,
          adultsJ, childrenJ, ha, hc, truthy_num_two, truthy_num_zero,
          JVal.truthy, JVal.render, List.filterMap_cons, h1, h2, h6,
          format8_ne_empty]
    | some s5 =>
      rcases Bool.eq_false_or_eq_true (a.origin != "") with h1 | h1 <;>
        rcases Bool.eq_false_or_eq_true (a.destination != "") with h2 | h2 <;>
        rcases Bool.eq_false_or_eq_true (s5 != "") with h5 | h5 <;>
        rcases Bool.eq_false_or_eq_true (hourRangeStr a != "") with h6 | h6 <;>
        simp [queryParts, entriesOf, claimedQueryParts, reqAt, initParams,
          adultsJ, childrenJ, ha, hc, truthy_num_two, truthy_num_zero,
          JVal.truthy, JVal.render, List.filterMap_cons, h1, h2, h5, h6,
          format8_ne_empty]
  | some s4 =>
    cases hc : a.children with
    | none =>
      rcases Bool.eq_false_or_eq_true (a.origin != "") with h1 | h1 <;>
        rcases Bool.eq_false_or_eq_true (a.destination != "") with h2 | h2 <;>
        rcases Bool.eq_false_or_eq_true (s4 != "") with h4 | h4 <;>
        rcases Bool.eq_false_or_eq_true (hourRangeStr a != "") with h6 | h6 <;>
        simp [queryParts, entriesOf, claimedQueryParts, reqAt, initParams,
          adultsJ, childrenJ, ha, hc, truthy_num_two, truthy_num_zero,
          JVal.truthy, JVal.render, List.filterMap_cons, h1, h2, h4, h6,
          format8_ne_empty]
    | some s5 =>
      rcases Bool.eq_false_or_eq_true (a.origin != "") with h1 | h1 <;>
        rcases Bool.eq_false_or_eq_true (a.destination != "") with h2 | h2 <;>
        rcases Bool.eq_false_or_eq_true (s4 != "") with h4 | h4 <;>
        rcases Bool.eq_false_or_eq_true (s5 != "") with h5 | h5 <;>
        rcases Bool.eq_false_or_eq_true (hourRangeStr a != "") with h6 | h6 <;>
        simp [queryParts, entriesOf, claimedQueryParts, reqAt, initParams,
          adultsJ, childrenJ, ha, hc, truthy_num_two, truthy_num_zero,
          JVal.truthy, JVal.render, List.filterMap_cons, h1, h2, h4, h5, h6,
          format8_ne_empty]

/-- Witness for the amended C3 at a run with `--children 0` supplied: the
query of the first request does carry `children=0`. -/
theorem c3_witness :
    queryParts (reqAt argsC0 ⟨2024, 6, 1⟩ 0) =
      claimedQueryParts argsC0 (reqAt argsC0 ⟨2024, 6, 1⟩ 0).originDepartureDate :=
  c3_amended_query argsC0 respAllEmpty ⟨2024, 6, 1⟩ (by decide) (by decide) _
    (by decide)

/-- C4 is false of the code at the boundary of the 8-digit format: starting
from the valid 8-digit date 99991231, iteration 1 reaches year 10000, where
`toISOString` switches to the expanded-year form, so the request carries the
11-character string "+0100000101", not an 8-digit one. -/
theorem c4_counterexample :
    ((runDriver args99 respAllEmpty).requests[1]?.map Params.originDepartureDate) =
        some "+0100000101" ∧ ("+0100000101" : String).length ≠ 8 := by
  decide

/-- C4 as amended: for every valid 8-digit start date and offset i in
[0, 15), the `originDepartureDate` sent on iteration i is the calendar date
D plus i days, dash-stripped from its ISO form — an 8-digit zero-padded
string whenever the shifted year still fits four digits (every case the
8-digit format can express; shifts past 9999-12-31 use the expanded
`+YYYYYY` form instead). -/
theorem c4_date_arithmetic (a : VArgs) (responses : Nat → DayResponse)
    (d0 : CivilDate) (hp : parse8 a.start = some d0) (hv : validDate d0)
    (i : Nat) (hi : i < 15) :
    ((runDriver a responses).requests[i]?.map Params.originDepartureDate) =
        some (format8 (calendarShift d0 i)) ∧
      ((calendarShift d0 i).year ≤ 9999 →
        (format8 (calendarShift d0 i)).length = 8) := by
  constructor
  · rw [runDriver_spec a responses d0 hp hv]
    have hr : (List.range 15)[i]? = some i := by
      simp [List.getElem?_range, hi]
    simp only [List.getElem?_map, hr, Option.map_some']
    rw [show (reqAt a d0 i).originDepartureDate = format8 (addDays d0 i) from rfl,
      addDays_eq_calendarShift d0 i hv]
  · exact fun hy => format8_length _ hy

theorem c4_witness :
    ((runDriver argsD respAllEmpty).requests[3]?.map Params.originDepartureDate) =
        some (format8 (calendarShift ⟨2024, 6, 1⟩ 3)) ∧
      (format8 (calendarShift ⟨2024, 6, 1⟩ 3)).length = 8 := by
  have H := c4_date_arithmetic argsD respAllEmpty ⟨2024, 6, 1⟩ (by decide)
    (by decide) 3 (by decide)
  exact ⟨H.1, H.2 (by decide)⟩

/-- C5: whenever at least one offer is admitted, exactly one mail-send call
occurs, and its text and HTML bodies consist of exactly one row per
admitted offer, in the order encountered: day offset ascending, then the
API's within-day order (`keptAll`). -/
theorem c5_single_send (a : VArgs) (responses : Nat → DayResponse)
    (d0 : CivilDate) (hp : parse8 a.start = some d0) (hv : validDate d0)
    (hne : keptAll a responses ≠ []) :
    (runDriver a responses).sends.length = 1 ∧
      ∀ m ∈ (runDriver a responses).sends,
        m.text = catRows ((keptAll a responses).map (textRow a)) ∧
        m.html = headerHTML a ++ catRows ((keptAll a responses).map (htmlRow a)) ++
          footerHTML := by
  have hA := hasAny_of_keptAll a responses hne
  rw [runDriver_spec a responses d0 hp hv]
  refine ⟨by simp [hA], ?_⟩
  intro m hm
  simp only [hA, if_true] at hm
  rw [List.mem_singleton] at hm
  subst hm
  constructor
  · exact allText_keptAll a responses
  · show headerHTML a ++ allHTML a responses ++ footerHTML = _
    rw [allHTML_keptAll]

theorem c5_witness : (runDriver argsD respOneGood).sends.length = 1 :=
  (c5_single_send argsD respOneGood ⟨2024, 6, 1⟩ (by decide) (by decide)
    (by decide)).1

/-- C6 is false of the code as claimed: a missing API credential makes the
process print an error line and exit 1 before any network call — but it does
not print the usage/help text, unlike the four missing-argument cases. -/
theorem c6_counterexample :
    mainRun envNoKey rawFull respAllEmpty =
      MainResult.earlyExit "Missing Transavia API key" false 1 := rfl

/-- C6 as amended: each of the five missing inputs independently terminates
the process before any network call.  A missing API credential prints an
error message (no usage) and exits with status 1; a missing required
argument prints an error line plus the usage text, and the process
terminates inside `program.help()` with commander's default status 0 — the
adjacent `process.exit(1)` is unreachable dead code. -/
theorem c6_amended_validation (e : Env) (r : RawArgs)
    (responses : Nat → DayResponse)
    (h : missingKey e = true ∨ firstMissing r ≠ none) :
    (mainRun e r responses).requestCount = 0 ∧
      (missingKey e = true →
        (mainRun e r responses).exitStatus = some 1 ∧
          (mainRun e r responses).helpWasShown = false) ∧
      (missingKey e = false →
        (mainRun e r responses).exitStatus = some 0 ∧
          (mainRun e r responses).helpWasShown = true) := by
  rcases Bool.eq_false_or_eq_true (missingKey e) with hk | hk
  · -- the credential is missing: exit through the key check, no usage text
    simp [mainRun, hk, MainResult.exitStatus, MainResult.requestCount,
      MainResult.helpWasShown]
  · -- the credential is present: some required argument must be missing
    have hm : firstMissing r ≠ none := by
      rcases h with h | h
      · rw [hk] at h
        exact absurd h (by decide)
      · exact h
    obtain ⟨s, hs⟩ := Option.ne_none_iff_exists'.mp hm
    simp [mainRun, hk, hs, MainResult.exitStatus, MainResult.requestCount,
      MainResult.helpWasShown]

theorem c6_witness :
    (mainRun envOK rawNoMail respAllEmpty).requestCount = 0 ∧
      (mainRun envOK rawNoMail respAllEmpty).exitStatus = some 0 ∧
      (mainRun envOK rawNoMail respAllEmpty).helpWasShown = true := by
  have H := c6_amended_validation envOK rawNoMail respAllEmpty (Or.inr (by decide))
  exact ⟨H.1, (H.2.2 rfl).1, (H.2.2 rfl).2⟩

/-- C7: a day whose request fails over HTTP has its error response body
logged and never aborts the scan — all 15 offsets still issue exactly one
request each (no retries), and the report text still carries every day's
contribution. -/
theorem c7_failure_isolated (a : VArgs) (responses : Nat → DayResponse)
    (d0 : CivilDate) (hp : parse8 a.start = some d0) (hv : validDate d0)
    (j : Nat) (b : String) (hj : j < 15)
    (hfail : responses j = DayResponse.httpError b) :
    (runDriver a responses).requests = (List.range 15).map (reqAt a d0) ∧
      some b ∈ (runDriver a responses).logs ∧
      (runDriver a responses).mailText =
        catRows ((List.range 15).map (fun i => dayText a (cfgOf a) (responses i))) := by
  rw [runDriver_spec a responses d0 hp hv]
  refine ⟨rfl, ?_, rfl⟩
  show some b ∈ ((List.range 15).map (fun i => dayLog (responses i))).flatten
  refine List.mem_flatten.mpr ⟨dayLog (responses j),
    List.mem_map.mpr ⟨j, List.mem_range.mpr hj, rfl⟩, ?_⟩
  rw [hfail]
  simp [dayLog]

theorem c7_witness : some "boom" ∈ (runDriver argsD respOneFail).logs :=
  (c7_failure_isolated argsD respOneFail ⟨2024, 6, 1⟩ (by decide) (by decide) 3
    "boom" (by decide) (by decide)).2.1

/-- C8: after any sequence of responses, the plain-text and HTML buffers
hold the same number of offer rows — one row of each kind per admitted
offer, appended in the same step. -/
theorem c8_row_parity (a : VArgs) (responses : Nat → DayResponse)
    (d0 : CivilDate) (hp : parse8 a.start = some d0) (hv : validDate d0) :
    (runDriver a responses).mailText =
        catRows ((keptAll a responses).map (textRow a)) ∧
      (runDriver a responses).mailHTML =
        headerHTML a ++ catRows ((keptAll a responses).map (htmlRow a)) ++
          footerHTML ∧
      ((keptAll a responses).map (textRow a)).length =
        ((keptAll a responses).map (htmlRow a)).length := by
  rw [runDriver_spec a responses d0 hp hv]
  refine ⟨allText_keptAll a responses, ?_, by simp⟩
  show headerHTML a ++ allHTML a responses ++ footerHTML = _
  rw [allHTML_keptAll]

theorem c8_witness :
    (runDriver argsD respOneGood).mailText =
        catRows ((keptAll argsD respOneGood).map (textRow argsD)) ∧
      (runDriver argsD respOneGood).mailHTML =
        headerHTML argsD ++
          catRows ((keptAll argsD respOneGood).map (htmlRow argsD)) ++
          footerHTML ∧
      ((keptAll argsD respOneGood).map (textRow argsD)).length =
        ((keptAll argsD respOneGood).map (htmlRow argsD)).length :=
  c8_row_parity argsD respOneGood ⟨2024, 6, 1⟩ (by decide) (by decide)

/-- C9: per-day processing is not atomic — a day whose `flightOffer` array
is a well-formed prefix followed by a malformed element keeps the admitted
rows of that prefix in both the plain-text and the HTML buffer, logs
`undefined` (`none`) through the same catch that handles HTTP failures (an
absent `flightOffer` field is logged the same way), and the scan still
issues all 15 requests and keeps every other day's rows in both buffers. -/
theorem c9_partial_day (a : VArgs) (responses : Nat → DayResponse)
    (d0 : CivilDate) (hp : parse8 a.start = some d0) (hv : validDate d0)
    (j : Nat) (hj : j < 15) (pre : List Offer) (rest : List Item)
    (hresp : responses j =
      DayResponse.okResponse (some (pre.map Item.ok ++ Item.bad :: rest))) :
    dayText a (cfgOf a) (responses j) =
        catRows ((pre.filter (offerKept (cfgOf a))).map (textRow a)) ∧
      dayHTML a (cfgOf a) (responses j) =
        catRows ((pre.filter (offerKept (cfgOf a))).map (htmlRow a)) ∧
      dayLog (responses j) = [none] ∧
      dayLog (DayResponse.okResponse none) = [none] ∧
      (runDriver a responses).mailText =
        catRows ((List.range 15).map (fun i => dayText a (cfgOf a) (responses i))) ∧
      (runDriver a responses).mailHTML =
        headerHTML a ++
          catRows ((List.range 15).map (fun i => dayHTML a (cfgOf a) (responses i))) ++
          footerHTML ∧
      (runDriver a responses).requests.length = 15 := by
  refine ⟨?_, ?_, ?_, rfl, ?_, ?_, ?_⟩
  · rw [hresp]
    simp [dayText, dayKept, goodItems_of_split]
  · rw [hresp]
    simp [dayHTML, dayKept, goodItems_of_split]
  · rw [hresp]
    simp [dayLog, anyBad_of_split]
  · rw [runDriver_spec a responses d0 hp hv]
    rfl
  · rw [runDriver_spec a responses d0 hp hv]
    rfl
  · rw [runDriver_spec a responses d0 hp hv]
    simp

theorem c9_witness :
    dayLog (respSplitDay 2) = [none] ∧
      (runDriver argsD respSplitDay).requests.length = 15 := by
  have H := c9_partial_day argsD respSplitDay ⟨2024, 6, 1⟩ (by decide) (by decide)
    2 (by decide) [cheapOffer] [Item.ok cheapOffer] (by decide)
  exact ⟨H.2.2.1, H.2.2.2.2.2.2⟩

/-- C10: across the 15 iterations only `originDepartureDate` changes — every
issued request carries the origin, destination, directFlight, adults,
children and hourRange values fixed before the loop. -/
theorem c10_frame (a : VArgs) (responses : Nat → DayResponse)
    (d0 : CivilDate) (hp : parse8 a.start = some d0) (hv : validDate d0)
    (p : Params) (hmem : p ∈ (runDriver a responses).requests) :
    p.origin = a.origin ∧ p.destination = a.destination ∧
      p.directFlight = true ∧ p.adults = adultsJ a ∧
      p.children = childrenJ a ∧ p.hourRange = hourRangeStr a := by
  rw [runDriver_spec a responses d0 hp hv] at hmem
  obtain ⟨i, hi, rfl⟩ := List.mem_map.mp hmem
  exact ⟨rfl, rfl, rfl, rfl, rfl, rfl⟩

theorem c10_witness :
    (reqAt argsD ⟨2024, 6, 1⟩ 5).origin = argsD.origin ∧
      (reqAt argsD ⟨2024, 6, 1⟩ 5).destination = argsD.destination ∧
      (reqAt argsD ⟨2024, 6, 1⟩ 5).directFlight = true ∧
      (reqAt argsD ⟨2024, 6, 1⟩ 5).adults = adultsJ argsD ∧
      (reqAt argsD ⟨2024, 6, 1⟩ 5).children = childrenJ argsD ∧
      (reqAt argsD ⟨2024, 6, 1⟩ 5).hourRange = hourRangeStr argsD :=
  c10_frame argsD respAllEmpty ⟨2024, 6, 1⟩ (by decide) (by decide) _ (by decide)

end Transavia
